import Mathlib

/-!
Shallow embedding of the fileProcessor backend core: the stream batcher with
its line parsers (`src/backend/src/utils/streamProcessor.js` and the revised
StreamProcessor in `src/unnamed/part_007`), the job queue
(`src/backend/src/services/queue/jobQueue.js`), and the batch persistence
layer (`saveBatch` in the file service and the `fileData` schema).
Asynchronous effects are modelled by explicit state passing: the batch sink
and the database saves become explicit outcome parameters, timers become a
Boolean oracle saying after which lines the idle-flush fires, and dates
become natural-number timestamps.
-/

namespace FileProc

/-- A parsed line record as produced by the line parsers: all three parsers
attach the 1-based `lineNumber` they were given; the CSV parser fills `data`
with the field values, the text parser fills `content` with the raw line.
The JSON payload of `parseJSONLine` is not needed by any claim, so the
record carries only the fields the claims observe. -/
structure ParsedRecord where
  lineNumber : Nat
  data : List String := []
  content : Option String := none
  deriving DecidableEq, Repr

/-- An entry of the `errors` array of `processStream`: either a per-line
parse error `{line, content(truncated to 100), error}` or an aggregated
batch error `{type: batch_error, message, batchSize}`. -/
inductive ErrEntry where
  | lineErr (line : Nat) (content : String) (error : String)
  | batchErr (message : String) (batchSize : Nat)
  deriving DecidableEq, Repr

/-- The mutable state of one `processStream` invocation
(`src/unnamed/part_007`, lines 31-37): the current batch, the processed and
failed counters, the error list, the line counter, and in addition the
number of sink invocations so far (`flushCount`, used to index the sink
outcome oracle) and the observable list of batches handed to the sink
(`sinkCalls`, recording every `batchProcessor(batch)` call). -/
structure PSState where
  batch : List ParsedRecord := []
  processedCount : Nat := 0
  failedCount : Nat := 0
  errors : List ErrEntry := []
  lineNumber : Nat := 0
  flushCount : Nat := 0
  sinkCalls : List (List ParsedRecord) := []
  deriving DecidableEq, Repr

/-- JavaScript `s.trim()`: strip leading and trailing whitespace
(modelled over the ASCII whitespace characters). Defined structurally over
the character list so that it evaluates by kernel reduction. -/
def jsTrim (s : String) : String :=
  ⟨((s.data.dropWhile Char.isWhitespace).reverse.dropWhile
      Char.isWhitespace).reverse⟩

/-- JavaScript `s.substring(0, n)`, structurally over the characters. -/
def jsTake (s : String) (n : Nat) : String :=
  ⟨s.data.take n⟩

/-- A line parser: JavaScript parsers either throw (`Except.error`) or
return a record object (objects are always truthy, so the
`if (parsedData)` guard in `processStream` always pushes the record). -/
abbrev LineParser := String → Nat → Except String ParsedRecord

/-- The sink (`batchProcessor`): the outcome of the n-th sink call, either
success or a rejection carrying an error message. -/
abbrev Sink := Nat → Except String Unit

/-- `flushBatch` from `src/unnamed/part_007` lines 45-78 (the version at
`src/backend/src/utils/streamProcessor.js` lines 31-54 is identical in its
counting behaviour): an empty batch is a no-op; otherwise the sink is
invoked with the batch, on success `processedCount` grows by the batch
length, on failure `failedCount` grows by the batch length and one
aggregated `batch_error` entry is appended; the batch is cleared either
way. The batch handed to the sink is recorded in `sinkCalls`. -/
def flushBatch (sink : Sink) (s : PSState) : PSState :=
  if s.batch.isEmpty then s
  else
    match sink s.flushCount with
    | .ok _ =>
        { s with
          processedCount := s.processedCount + s.batch.length
          batch := []
          flushCount := s.flushCount + 1
          sinkCalls := s.sinkCalls ++ [s.batch] }
    | .error m =>
        { s with
          failedCount := s.failedCount + s.batch.length
          errors := s.errors ++ [.batchErr m s.batch.length]
          batch := []
          flushCount := s.flushCount + 1
          sinkCalls := s.sinkCalls ++ [s.batch] }

/-- The `rl.on(line)` handler of `processStream` (`src/unnamed/part_007`
lines 90-123): increment the line counter; skip blank (whitespace-only)
lines; otherwise parse the line, pushing the record into the batch and
flushing when the batch reaches `batchSize`, or on a parse error increment
`failedCount` and record a capped error entry (the revised StreamProcessor
only pushes a line error while fewer than 100 entries exist). The idle
batch timer (`scheduleBatchFlush`) may fire between lines; it is modelled
by the oracle `timerFires`: after the n-th line the pending timeout flush
runs exactly when `timerFires n` (a timer flush of an empty batch is a
no-op, so this covers every possible firing pattern). -/
def consumeLine (parser : LineParser) (sink : Sink) (batchSize : Nat)
    (s : PSState) (line : String) : PSState :=
  if jsTrim line = "" then s
  else
    match parser line s.lineNumber with
    | .ok r =>
        if batchSize ≤ (s.batch ++ [r]).length then
          flushBatch sink { s with batch := s.batch ++ [r] }
        else { s with batch := s.batch ++ [r] }
    | .error m =>
        { s with
          failedCount := s.failedCount + 1
          errors :=
            if s.errors.length < 100 then
              s.errors ++ [.lineErr s.lineNumber (jsTake line 100) m]
            else s.errors }

/-- The pending idle-flush timer firing (or not) once the handler of the
current line has returned. -/
def afterTimer (sink : Sink) (timerFires : Nat → Bool) (s : PSState) : PSState :=
  if timerFires s.lineNumber then flushBatch sink s else s

/-- One full `line` event: increment the counter, handle the line, then
possibly run the pending idle flush. -/
def stepLine (parser : LineParser) (sink : Sink) (timerFires : Nat → Bool)
    (batchSize : Nat) (s : PSState) (line : String) : PSState :=
  afterTimer sink timerFires
    (consumeLine parser sink batchSize { s with lineNumber := s.lineNumber + 1 } line)

/-- Consuming a list of lines in order (the readline `line` events). -/
def runLines (parser : LineParser) (sink : Sink) (timerFires : Nat → Bool)
    (batchSize : Nat) (s : PSState) (lines : List String) : PSState :=
  lines.foldl (stepLine parser sink timerFires batchSize) s

/-- `processStream` (`src/unnamed/part_007` lines 30-160): consume every
line of the stream, then on `close` flush the remaining batch. The input
byte stream is represented by its list of lines (readline with
`crlfDelay: Infinity` normalizes CR/LF/CRLF line endings). -/
def processStream (parser : LineParser) (sink : Sink) (timerFires : Nat → Bool)
    (batchSize : Nat) (lines : List String) : PSState :=
  flushBatch sink (runLines parser sink timerFires batchSize {} lines)

/-- The value resolved by `processStream`:
`{processed, failed, errors: errors.slice(0, 100)}`. -/
structure PSResult where
  processed : Nat
  failed : Nat
  errors : List ErrEntry
  deriving DecidableEq, Repr

/-- The `{processed, failed, errors}` object resolved on `close`. -/
def streamResult (parser : LineParser) (sink : Sink) (timerFires : Nat → Bool)
    (batchSize : Nat) (lines : List String) : PSResult :=
  let s := processStream parser sink timerFires batchSize lines
  { processed := s.processedCount, failed := s.failedCount, errors := s.errors.take 100 }

/-- The character loop of `parseCSVValues` (`src/unnamed/part_007` lines
182-210), recursing over the characters of the line with the `inQuotes`
flag and the accumulated `current` field: inside quotes a doubled quote
contributes one literal quote; an unescaped quote toggles `inQuotes`; a
comma outside quotes terminates the current field (trimmed); every other
character is accumulated; at end of line the final field is pushed. -/
def csvVals : List Char → Bool → String → List String
  | [], _, cur => [jsTrim cur]
  | '"' :: '"' :: rest, true, cur => csvVals rest true (cur.push '"')
  | '"' :: rest, inQ, cur => csvVals rest (!inQ) cur
  | ',' :: rest, false, cur => jsTrim cur :: csvVals rest false ""
  | c :: rest, inQ, cur => csvVals rest inQ (cur.push c)

/-- `parseCSVValues(line)` from `src/unnamed/part_007` lines 182-210. -/
def parseCSVValues (line : String) : List String :=
  csvVals line.data false ""

/-- `parseCSVLine` of the revised StreamProcessor (`src/unnamed/part_007`
lines 165-178): parse the values (handling quoted fields), throw on an
empty value list, otherwise return `{lineNumber, data: values}`. -/
def parseCSVLine (line : String) (lineNumber : Nat) : Except String ParsedRecord :=
  let values := parseCSVValues line
  if values.length = 0 then .error "Empty line"
  else .ok { lineNumber := lineNumber, data := values }

/-- `parseCSVLine` of `src/backend/src/utils/streamProcessor.js` lines
127-139: `line.split(',').map(v => v.trim())`, with no quote handling. -/
def parseCSVLineSimple (line : String) (lineNumber : Nat) : Except String ParsedRecord :=
  let values := (line.splitOn ",").map jsTrim
  if values.length = 0 then .error "Empty line"
  else .ok { lineNumber := lineNumber, data := values }

/-- `parseTextLine`: `{lineNumber, content: line}`; never throws. -/
def parseTextLine (line : String) (lineNumber : Nat) : Except String ParsedRecord :=
  .ok { lineNumber := lineNumber, content := some line }

/-- Number of non-blank (not whitespace-only) lines of the input. -/
def nonBlankCount (lines : List String) : Nat :=
  (lines.filter (fun l => !(jsTrim l == ""))).length

/-- What one line contributes to the record line numbers: nothing for a
blank or failing line, its physical position `n` for a parsed line. -/
def okContrib (parser : LineParser) (l : String) (n : Nat) : List Nat :=
  if jsTrim l = "" then []
  else
    match parser l n with
    | .ok _ => [n]
    | .error _ => []

/-- The 1-based physical positions of the lines that produce a record:
blank lines and lines whose parse throws advance the position counter but
contribute no index. `n` is the number of lines already consumed. -/
def okIndices (parser : LineParser) : List String → Nat → List Nat
  | [], _ => []
  | l :: rest, n => okContrib parser l (n + 1) ++ okIndices parser rest (n + 1)

/-! ## Job queue (`src/backend/src/services/queue/jobQueue.js`) -/

/-- Job lifecycle status (`job.model.js` enum). -/
inductive JStatus where
  | pending | processing | completed | failed
  deriving DecidableEq, Repr

/-- File lifecycle status (`file.model.js` enum). -/
inductive FStatus where
  | uploaded | processing | processed | failed
  deriving DecidableEq, Repr

/-- The `error` subdocument `{message, stack, timestamp}` of a job (the
stack is folded into the message; dates are natural-number timestamps). -/
structure ErrInfo where
  message : String
  timestamp : Nat
  deriving DecidableEq, Repr

/-- The `result` subdocument `{processed, failed}` of a completed job
(the capped error list is not observed by any claim). -/
structure ResInfo where
  processed : Nat
  failed : Nat
  deriving DecidableEq, Repr

/-- The persisted fields of one job document that the scheduler mutates.
Schema defaults (`job.model.js`): status `pending`, attempts `0`,
maxAttempts `3`. -/
structure JobState where
  status : JStatus := .pending
  attempts : Nat := 0
  maxAttempts : Nat := 3
  error : Option ErrInfo := none
  result : Option ResInfo := none
  startedAt : Option Nat := none
  completedAt : Option Nat := none
  deriving DecidableEq, Repr

/-- A job as created by `addJob`: `status: pending` with
`maxAttempts: config.queue.retryAttempts` (default 3) and the schema
defaults for the remaining fields. -/
def newJob (maxAttempts : Nat) : JobState :=
  { maxAttempts := maxAttempts }

/-- `processNext` marking the dequeued job: `status = processing`,
`startedAt = new Date()`, then save. -/
def startAttempt (j : JobState) (t : Nat) : JobState :=
  { j with status := .processing, startedAt := some t }

/-- The success path of `executeJob` (jobQueue.js lines 218-246): mark
`completed`, stamp `completedAt`, record `result`, save. The failure path
rethrows to `handleJobError`. Note that the stale `error` of an earlier
failed attempt is not cleared. -/
def executeJob (j : JobState) (r : ResInfo) (t : Nat) : JobState :=
  { j with status := .completed, completedAt := some t, result := some r }

/-- `handleJobError` (jobQueue.js lines 251-294): increment `attempts`,
record the error; if `attempts >= maxAttempts` mark terminally `failed`,
stamp `completedAt` and set the associated File document status to
`failed` (`File.updateOne`); otherwise reset the job to `pending` for a
retry, leaving the file untouched. Returns the saved job together with
the file status. -/
def handleJobError (j : JobState) (f : FStatus) (msg : String) (t : Nat) :
    JobState × FStatus :=
  let j1 := { j with attempts := j.attempts + 1, error := some ⟨msg, t⟩ }
  if j1.maxAttempts ≤ j1.attempts then
    ({ j1 with status := .failed, completedAt := some t }, .failed)
  else
    ({ j1 with status := .pending }, f)

/-- The outcome of racing one pipeline execution against the job timeout:
either the pipeline result or the rejection message (a pipeline error or
the string of the timeout error). -/
abbrev Outcome := Except String ResInfo

/-- One pass of `processNext` over a dequeued pending job: mark it
`processing`, then either `executeJob` completes it or the caught error is
handled by `handleJobError`. -/
def runAttempt (j : JobState) (f : FStatus) (o : Outcome) (t : Nat) :
    JobState × FStatus :=
  let j1 := startAttempt j t
  match o with
  | .ok r => (executeJob j1 r t, f)
  | .error m => handleJobError j1 f m t

/-- The control loop driving one job to rest: while the job is `pending`
the loop dequeues it and runs the next attempt (each attempt with the next
outcome of `os` and the next timestamp); a non-pending job is never
dequeued again. Also returns the sequence of statuses saved during the
attempts: each attempt saves `processing` and then the post-attempt
status. -/
def runJob (j : JobState) (f : FStatus) (os : List Outcome) (t : Nat) :
    JobState × FStatus × List JStatus :=
  match os with
  | [] => (j, f, [])
  | o :: rest =>
      if j.status = .pending then
        let a := runAttempt j f o t
        let b := runJob a.1 a.2 rest (t + 1)
        (b.1, b.2.1, JStatus.processing :: a.1.status :: b.2.2)
      else
        (j, f, [])

/-! ## Degraded mode, admission, stats, initialization -/

/-- A persistence-layer error as inspected by `isQuotaError`. -/
structure DbErr where
  code : Option Nat := none
  codeName : Option String := none
  message : String := ""
  deriving DecidableEq, Repr

/-- Substring containment over character lists (structural, so that it
evaluates by kernel reduction). -/
def containsSub (sub l : List Char) : Bool :=
  match l with
  | [] => List.isPrefixOf sub []
  | _ :: t => List.isPrefixOf sub l || containsSub sub t

/-- JavaScript `s.includes(sub)`. -/
def strIncludes (s sub : String) : Bool :=
  containsSub sub.data s.data

/-- `isQuotaError` (jobQueue.js lines 76-83): Atlas error code 8000 with
codeName AtlasError, or a message containing the substring space quota. -/
def isQuotaError (e : DbErr) : Bool :=
  (e.code == some 8000 && e.codeName == some "AtlasError")
    || strIncludes e.message "space quota"

/-- A service error surfaced by `addJob`: the rethrown message plus the
`statusCode` property set on it (absent on a generic rethrown error). -/
structure SvcErr where
  message : String
  statusCode : Option Nat := none
  deriving DecidableEq, Repr

/-- The degraded-mode rejection message of `addJob`. -/
def unavailableMsg : String :=
  "Service temporarily unavailable - database storage quota exceeded. Please try again later."

/-- The error message recorded on stuck jobs by `initialize`. -/
def restartMsg : String :=
  "Job was interrupted by server restart - marked as failed to prevent crash loop"

/-- A persisted job document: identity, file reference, priority and the
mutable state. -/
structure PJob where
  jobId : String
  fileId : String
  priority : Int
  state : JobState
  deriving DecidableEq, Repr

/-- The scheduler state: the `degradedMode` flag, whether the processing
loop is running (`this.processing`), and the persisted job collection. -/
structure QueueState where
  degradedMode : Bool := false
  processing : Bool := false
  jobs : List PJob := []
  deriving DecidableEq, Repr

/-- The descriptor returned by a successful `addJob`. -/
structure JobDescriptor where
  jobId : String
  fileId : String
  status : JStatus
  deriving DecidableEq, Repr

/-- `addJob` (jobQueue.js lines 86-129): in degraded mode reject
immediately with the 503 unavailable error and touch nothing; otherwise
persist a new pending job (with `maxAttempts = config.queue.retryAttempts
= 3`). When the save rejects with a quota error, flip `degradedMode` and
rethrow the 503 unavailable error; any other save error is rethrown
generically (no `statusCode`). The save outcome of the database is an
explicit parameter, as is the generated `jobId`. -/
def addJob (q : QueueState) (fileId : String) (priority : Int) (jobId : String)
    (saveOutcome : Except DbErr Unit) : QueueState × Except SvcErr JobDescriptor :=
  if q.degradedMode then
    (q, .error { message := unavailableMsg, statusCode := some 503 })
  else
    match saveOutcome with
    | .ok _ =>
        let j : PJob := { jobId := jobId, fileId := fileId, priority := priority,
                          state := newJob 3 }
        ({ q with jobs := q.jobs ++ [j] },
         .ok { jobId := jobId, fileId := fileId, status := .pending })
    | .error e =>
        if isQuotaError e then
          ({ q with degradedMode := true },
           .error { message := unavailableMsg, statusCode := some 503 })
        else
          (q, .error { message := e.message })

/-- The statistics object of `getStats` (jobQueue.js lines 351-378),
restricted to the job status counts and the `degradedMode` flag. -/
structure Stats where
  pending : Nat
  processing : Nat
  completed : Nat
  failed : Nat
  degradedMode : Bool
  deriving DecidableEq, Repr

/-- `getStats`: `countDocuments` per status plus the degraded flag. -/
def getStats (q : QueueState) : Stats :=
  { pending := (q.jobs.filter (fun p => p.state.status == .pending)).length
    processing := (q.jobs.filter (fun p => p.state.status == .processing)).length
    completed := (q.jobs.filter (fun p => p.state.status == .completed)).length
    failed := (q.jobs.filter (fun p => p.state.status == .failed)).length
    degradedMode := q.degradedMode }

/-- The per-job body of the `initialize` recovery loop: a job found in
`processing` is force-finalized to `failed` with the restart error message
and a stamped `completedAt`; other jobs are untouched. -/
def failStuck (t : Nat) (p : PJob) : PJob :=
  if p.state.status = .processing then
    { p with state := { p.state with
        status := .failed
        error := some ⟨restartMsg, t⟩
        completedAt := some t } }
  else p

/-- `initialize` (jobQueue.js lines 19-71): query the jobs stuck in
`processing` and force-finalize each of them, then start the processing
loop. When the query itself rejects with a quota error, start in degraded
mode with the processing loop still running; any other error is rethrown.
The outcome of the `Job.find` query is an explicit parameter; the per-job
saves are assumed to succeed (the quota-failure of an individual save only
skips that update). -/
def initQueue (q : QueueState) (t : Nat) (findOutcome : Except DbErr Unit) :
    Except DbErr QueueState :=
  match findOutcome with
  | .ok _ => .ok { q with jobs := q.jobs.map (failStuck t), processing := true }
  | .error e =>
      if isQuotaError e then
        .ok { q with degradedMode := true, processing := true }
      else
        .error e

/-! ## Batch persistence (`saveBatch` of the file service and the
`fileData` schema) -/

/-- A document of the parsed-line collection (`fileData.model.js`). -/
structure FileDataDoc where
  fileId : String
  lineNumber : Nat
  content : Option String := none
  data : List String := []
  deriving DecidableEq, Repr

/-- Whether the `(fileId, lineNumber)` compound index of the parsed-line
collection is a unique index. `fileData.model.js` line 27 declares
`fileDataSchema.index(\x7b fileId: 1, lineNumber: 1 \x7d)` with no
`unique: true` option, so the index is not unique. -/
def fileDataUniqueIndex : Bool := false

/-- Whether the store already holds a document with the same
`(fileId, lineNumber)` key. -/
def hasKey (store : List FileDataDoc) (d : FileDataDoc) : Bool :=
  store.any (fun x => x.fileId == d.fileId && x.lineNumber == d.lineNumber)

/-- `insertMany(documents, \x7b ordered: false \x7d)` against a store whose
`(fileId, lineNumber)` index may or may not be unique: with a unique index
each duplicate-key document is skipped and the duplicate-key error
(code 11000) is reported after the batch; without one every document is
appended. Returns the new store and whether a duplicate-key error was
raised. -/
def insertMany (uniq : Bool) (store : List FileDataDoc)
    (docs : List FileDataDoc) : List FileDataDoc × Bool :=
  docs.foldl
    (fun acc d =>
      if uniq && hasKey acc.1 d then (acc.1, true)
      else (acc.1 ++ [d], acc.2))
    (store, false)

/-- `saveBatch` (file service, cited as s3.service.js lines 232-250): map
the batch records to documents and `insertMany` them with
`ordered: false`; a duplicate-key error (code 11000) is caught and only
logged, so the batch save succeeds either way. The store uses the index
uniqueness declared by the schema (`fileDataUniqueIndex`). -/
def saveBatch (store : List FileDataDoc) (fileId : String)
    (batch : List ParsedRecord) : List FileDataDoc :=
  let documents := batch.map fun r =>
    { fileId := fileId, lineNumber := r.lineNumber,
      content := r.content, data := r.data : FileDataDoc }
  (insertMany fileDataUniqueIndex store documents).1

/-! ## Invariants of the stream batcher -/

/-- The lines accounted for so far: flushed successfully, failed, or
sitting in the current batch. -/
def countSum (s : PSState) : Nat :=
  s.processedCount + s.failedCount + s.batch.length

/-- The line numbers of all records produced so far, flushed batches first
(in sink-call order) and the current batch last. -/
def recNums (s : PSState) : List Nat :=
  (s.sinkCalls.flatten ++ s.batch).map (fun r => r.lineNumber)

theorem flushBatch_countSum (sink : Sink) (s : PSState) :
    countSum (flushBatch sink s) = countSum s := by
  unfold flushBatch countSum
  split
  · rfl
  · split <;> simp <;> omega

theorem flushBatch_batch (sink : Sink) (s : PSState) :
    (flushBatch sink s).batch = [] := by
  unfold flushBatch
  split
  · next h => simpa using h
  · split <;> rfl

theorem flushBatch_lineNumber (sink : Sink) (s : PSState) :
    (flushBatch sink s).lineNumber = s.lineNumber := by
  unfold flushBatch
  split
  · rfl
  · split <;> rfl

theorem flushBatch_recNums (sink : Sink) (s : PSState) :
    recNums (flushBatch sink s) = recNums s := by
  unfold flushBatch recNums
  split
  · rfl
  · split <;> simp

theorem afterTimer_countSum (sink : Sink) (tf : Nat → Bool) (s : PSState) :
    countSum (afterTimer sink tf s) = countSum s := by
  unfold afterTimer
  split
  · exact flushBatch_countSum sink s
  · rfl

theorem afterTimer_lineNumber (sink : Sink) (tf : Nat → Bool) (s : PSState) :
    (afterTimer sink tf s).lineNumber = s.lineNumber := by
  unfold afterTimer
  split
  · exact flushBatch_lineNumber sink s
  · rfl

theorem afterTimer_recNums (sink : Sink) (tf : Nat → Bool) (s : PSState) :
    recNums (afterTimer sink tf s) = recNums s := by
  unfold afterTimer
  split
  · exact flushBatch_recNums sink s
  · rfl

theorem consumeLine_countSum (parser : LineParser) (sink : Sink)
    (bs : Nat) (s : PSState) (l : String) :
    countSum (consumeLine parser sink bs s l)
      = countSum s + (if jsTrim l = "" then 0 else 1) := by
  unfold consumeLine
  split
  · simp
  · split
    · split
      · rw [flushBatch_countSum]
        simp [countSum]
        omega
      · simp [countSum]
        omega
    · simp [countSum]
      omega

theorem consumeLine_lineNumber (parser : LineParser) (sink : Sink)
    (bs : Nat) (s : PSState) (l : String) :
    (consumeLine parser sink bs s l).lineNumber = s.lineNumber := by
  unfold consumeLine
  split
  · rfl
  · split
    · split
      · rw [flushBatch_lineNumber]
      · rfl
    · rfl

theorem consumeLine_recNums (parser : LineParser) (sink : Sink)
    (bs : Nat) (s : PSState) (l : String)
    (hp : ∀ l n r, parser l n = .ok r → r.lineNumber = n) :
    recNums (consumeLine parser sink bs s l)
      = recNums s ++ okContrib parser l s.lineNumber := by
  unfold consumeLine okContrib
  split
  · simp
  · split
    · rename_i r hr
      have hrn : r.lineNumber = s.lineNumber := hp _ _ _ hr
      split
      · rw [flushBatch_recNums]
        simp [recNums, hrn]
      · simp [recNums, hrn]
    · simp [recNums]

theorem stepLine_countSum (parser : LineParser) (sink : Sink)
    (tf : Nat → Bool) (bs : Nat) (s : PSState) (l : String) :
    countSum (stepLine parser sink tf bs s l)
      = countSum s + (if jsTrim l = "" then 0 else 1) := by
  unfold stepLine
  rw [afterTimer_countSum, consumeLine_countSum]
  simp [countSum]

theorem stepLine_lineNumber (parser : LineParser) (sink : Sink)
    (tf : Nat → Bool) (bs : Nat) (s : PSState) (l : String) :
    (stepLine parser sink tf bs s l).lineNumber = s.lineNumber + 1 := by
  unfold stepLine
  rw [afterTimer_lineNumber, consumeLine_lineNumber]

theorem stepLine_recNums (parser : LineParser) (sink : Sink)
    (tf : Nat → Bool) (bs : Nat) (s : PSState) (l : String)
    (hp : ∀ l n r, parser l n = .ok r → r.lineNumber = n) :
    recNums (stepLine parser sink tf bs s l)
      = recNums s ++ okContrib parser l (s.lineNumber + 1) := by
  unfold stepLine
  rw [afterTimer_recNums, consumeLine_recNums parser sink bs _ l hp]
  simp [recNums]

theorem nonBlankCount_cons (l : String) (rest : List String) :
    nonBlankCount (l :: rest)
      = (if jsTrim l = "" then 0 else 1) + nonBlankCount rest := by
  simp only [nonBlankCount, List.filter_cons]
  split
  · rename_i h
    rw [if_neg]
    · simp
      omega
    · simpa using h
  · rename_i h
    rw [if_pos]
    · simp
    · simpa using h

theorem okIndices_cons (parser : LineParser) (l : String)
    (rest : List String) (n : Nat) :
    okIndices parser (l :: rest) n
      = okContrib parser l (n + 1) ++ okIndices parser rest (n + 1) := rfl

theorem runLines_countSum (parser : LineParser) (sink : Sink)
    (tf : Nat → Bool) (bs : Nat) :
    ∀ (lines : List String) (s : PSState),
      countSum (runLines parser sink tf bs s lines)
        = countSum s + nonBlankCount lines := by
  intro lines
  induction lines with
  | nil => intro s; simp [runLines, nonBlankCount]
  | cons l rest ih =>
      intro s
      show countSum (runLines parser sink tf bs
        (stepLine parser sink tf bs s l) rest) = _
      rw [ih, stepLine_countSum, nonBlankCount_cons]
      omega

theorem runLines_lineNumber (parser : LineParser) (sink : Sink)
    (tf : Nat → Bool) (bs : Nat) :
    ∀ (lines : List String) (s : PSState),
      (runLines parser sink tf bs s lines).lineNumber
        = s.lineNumber + lines.length := by
  intro lines
  induction lines with
  | nil => intro s; simp [runLines]
  | cons l rest ih =>
      intro s
      show (runLines parser sink tf bs
        (stepLine parser sink tf bs s l) rest).lineNumber = _
      rw [ih, stepLine_lineNumber]
      simp
      omega

theorem runLines_recNums (parser : LineParser) (sink : Sink)
    (tf : Nat → Bool) (bs : Nat)
    (hp : ∀ l n r, parser l n = .ok r → r.lineNumber = n) :
    ∀ (lines : List String) (s : PSState),
      recNums (runLines parser sink tf bs s lines)
        = recNums s ++ okIndices parser lines s.lineNumber := by
  intro lines
  induction lines with
  | nil => intro s; simp [runLines, okIndices]
  | cons l rest ih =>
      intro s
      show recNums (runLines parser sink tf bs
        (stepLine parser sink tf bs s l) rest) = _
      rw [ih, stepLine_recNums parser sink tf bs s l hp, stepLine_lineNumber,
        okIndices_cons, List.append_assoc]

theorem okIndices_bounds (parser : LineParser) :
    ∀ (lines : List String) (n m : Nat),
      m ∈ okIndices parser lines n → n < m := by
  intro lines
  induction lines with
  | nil => intro n m hm; simp [okIndices] at hm
  | cons l rest ih =>
      intro n m hm
      rw [okIndices_cons] at hm
      rcases List.mem_append.mp hm with h | h
      · unfold okContrib at h
        split at h
        · simp at h
        · split at h
          · simp at h
            omega
          · simp at h
      · exact Nat.lt_of_succ_lt (ih (n + 1) m h)

theorem okIndices_chain (parser : LineParser) :
    ∀ (lines : List String) (n : Nat),
      List.Chain' (· < ·) (okIndices parser lines n) := by
  intro lines
  induction lines with
  | nil => intro n; simp [okIndices]
  | cons l rest ih =>
      intro n
      rw [okIndices_cons]
      unfold okContrib
      split
      · simpa using ih (n + 1)
      · split
        · simp only [List.singleton_append]
          refine List.chain'_cons'.mpr ⟨?_, ih (n + 1)⟩
          intro y hy
          exact okIndices_bounds parser rest (n + 1) y (List.mem_of_mem_head? hy)
        · simpa using ih (n + 1)

/-! ## Quoted-field lemmas for the CSV value parser -/

theorem foldl_push_data (cs : List Char) :
    ∀ (s : String), (cs.foldl (fun a c => a.push c) s).data = s.data ++ cs := by
  induction cs with
  | nil => intro s; simp
  | cons c cs ih =>
      intro s
      simp only [List.foldl_cons]
      rw [ih, String.data_push]
      simp

/-- A non-quote character is accumulated into the current field while
inside a quoted region. -/
theorem csvVals_push (c : Char) (rest : List Char) (inQ : Bool)
    (cur : String) (hc : c ≠ '"') (hcm : ¬(c = ',' ∧ inQ = false)) :
    csvVals (c :: rest) inQ cur = csvVals rest inQ (cur.push c) := by
  rw [csvVals.eq_5 inQ cur c rest (fun e => hc e)
    (fun _ e _ _ => hc e) (fun h h2 => hcm ⟨h, h2⟩)]

/-- Inside a quoted region, quote-free characters (commas included) are
accumulated verbatim into the current field. -/
theorem csvVals_chunk (cs : List Char) (h : '"' ∉ cs) :
    ∀ (rest : List Char) (cur : String),
      csvVals (cs ++ rest) true cur
        = csvVals rest true (cs.foldl (fun a c => a.push c) cur) := by
  induction cs with
  | nil => intro rest cur; simp
  | cons c cs ih =>
      intro rest cur
      have hc : ¬(c = '"') := fun e => h (by simp [e])
      have hcs : '"' ∉ cs := fun hm => h (List.mem_cons_of_mem c hm)
      rw [List.cons_append, csvVals_push c (cs ++ rest) true cur hc (by simp)]
      rw [ih hcs rest (cur.push c)]
      simp

/-- An unescaped quote outside a quoted region opens one. -/
theorem csvVals_open_quote (rest : List Char) (cur : String) :
    csvVals ('"' :: rest) false cur = csvVals rest true cur := by
  rw [csvVals.eq_3 false cur rest (fun _ _ e => by cases e)]
  rfl

/-- A final quote closes the quoted region and the line ends. -/
theorem csvVals_close_quote (cur : String) :
    csvVals ['"'] true cur = [jsTrim cur] := by
  rw [csvVals.eq_3 true cur [] (fun _ e _ => by cases e)]
  rfl

/-- A doubled quote inside a quoted region contributes one literal
quote. -/
theorem csvVals_escaped_quote (rest : List Char) (cur : String) :
    csvVals ('"' :: '"' :: rest) true cur = csvVals rest true (cur.push '"') :=
  csvVals.eq_2 cur rest

/-- A double-quoted field may contain the comma delimiter: for any
quote-free content `w` (commas allowed), parsing the single quoted field
`"w"` yields exactly the field `w` (trimmed, as every field is). -/
theorem parseCSVValues_quoted (w : String) (h : '"' ∉ w.data) :
    parseCSVValues ("\"" ++ w ++ "\"") = [jsTrim w] := by
  unfold parseCSVValues
  have hdata : ("\"" ++ w ++ "\"").data = '"' :: (w.data ++ ['"']) := by
    rw [String.data_append, String.data_append]
    rfl
  rw [hdata, csvVals_open_quote, csvVals_chunk w.data h ['"'] "",
    csvVals_close_quote]
  have : (w.data.foldl (fun a c => a.push c) "") = w := by
    apply String.ext
    rw [foldl_push_data]
    rfl
  rw [this]

/-- A doubled quote inside a quoted field resolves to one literal quote:
for quote-free `u` and `v`, the quoted field `"u""v"` parses to the single
field value `u"v` (trimmed). -/
theorem parseCSVValues_escaped (u v : String) (hu : '"' ∉ u.data)
    (hv : '"' ∉ v.data) :
    parseCSVValues ("\"" ++ u ++ "\"\"" ++ v ++ "\"")
      = [jsTrim (u ++ "\"" ++ v)] := by
  unfold parseCSVValues
  have hdata : ("\"" ++ u ++ "\"\"" ++ v ++ "\"").data
      = '"' :: (u.data ++ ('"' :: '"' :: (v.data ++ ['"']))) := by
    rw [String.data_append, String.data_append, String.data_append,
      String.data_append]
    simp
  rw [hdata, csvVals_open_quote,
    csvVals_chunk u.data hu ('"' :: '"' :: (v.data ++ ['"'])) "",
    csvVals_escaped_quote,
    csvVals_chunk v.data hv ['"'] _,
    csvVals_close_quote]
  have : ((v.data.foldl (fun a c => a.push c)
      ((u.data.foldl (fun a c => a.push c) "").push '"')))
      = u ++ "\"" ++ v := by
    apply String.ext
    rw [foldl_push_data, String.data_push, foldl_push_data,
      String.data_append, String.data_append]
    rfl
  rw [this]

/-! ## Concrete sink and timer oracles used by closed instances -/

/-- A sink whose every call succeeds. -/
def sinkAllOk : Sink := fun _ => .ok ()

/-- The idle-flush timer never fires between lines. -/
def timerNever : Nat → Bool := fun _ => false

/-! ## Claim theorems -/

/-- C2: for every input line stream and every line parser of the parser
interface (which covers the supplied CSV, JSON and plain-text parsers,
each of which either throws or returns a record object), the result of
`processStream` satisfies `processed + failed = number of non-blank
lines`, for every batch size, every idle-timer firing pattern and every
pattern of sink successes and failures. -/
theorem c2_counts_conservation (parser : LineParser) (sink : Sink)
    (tf : Nat → Bool) (bs : Nat) (lines : List String) :
    (streamResult parser sink tf bs lines).processed
      + (streamResult parser sink tf bs lines).failed
      = nonBlankCount lines := by
  have h1 := runLines_countSum parser sink tf bs lines {}
  have h2 := flushBatch_countSum sink (runLines parser sink tf bs {} lines)
  have h3 := flushBatch_batch sink (runLines parser sink tf bs {} lines)
  unfold countSum at h1 h2
  rw [h3] at h2
  simp only [List.length_nil] at h2
  simp at h1
  show (processStream parser sink tf bs lines).processedCount
      + (processStream parser sink tf bs lines).failedCount
      = nonBlankCount lines
  unfold processStream
  omega

/-- C3: a failing flush sink call on a non-empty batch increments `failed`
by exactly the batch size, appends exactly one aggregated error entry,
leaves `processed` unchanged and clears the batch; the stream is not
aborted: every subsequent line is still consumed, and a later batch whose
sink call succeeds still increments `processed` by its size. -/
theorem c3_flush_failure (sink : Sink) (s : PSState) (m : String)
    (hb : s.batch ≠ []) (hf : sink s.flushCount = .error m) :
    (flushBatch sink s).failedCount = s.failedCount + s.batch.length
    ∧ (flushBatch sink s).errors = s.errors ++ [.batchErr m s.batch.length]
    ∧ (flushBatch sink s).processedCount = s.processedCount
    ∧ (flushBatch sink s).batch = []
    ∧ (∀ (parser : LineParser) (tf : Nat → Bool) (bs : Nat)
          (lines : List String),
        (runLines parser sink tf bs (flushBatch sink s) lines).lineNumber
          = (flushBatch sink s).lineNumber + lines.length)
    ∧ (∀ s2 : PSState, s2.batch ≠ [] → sink s2.flushCount = .ok () →
        (flushBatch sink s2).processedCount
          = s2.processedCount + s2.batch.length) := by
  have hbe : s.batch.isEmpty = false := by
    simpa [List.isEmpty_iff] using hb
  refine ⟨?_, ?_, ?_, ?_, ?_, ?_⟩
  · simp [flushBatch, hbe, hf]
  · simp [flushBatch, hbe, hf]
  · simp [flushBatch, hbe, hf]
  · simp [flushBatch, hbe, hf]
  · intro parser tf bs lines
    exact runLines_lineNumber parser sink tf bs lines (flushBatch sink s)
  · intro s2 h2 hok
    have h2e : s2.batch.isEmpty = false := by
      simpa [List.isEmpty_iff] using h2
    simp [flushBatch, h2e, hok]

/-- Concrete sink failing exactly on its first call. -/
def sinkFailFirst : Sink :=
  fun n => if n = 0 then .error "db down" else .ok ()

/-- A concrete batcher state holding a two-record batch. -/
def sC3 : PSState :=
  { batch := [{ lineNumber := 1, content := some "a" },
              { lineNumber := 2, content := some "b" }] }

/-- Closed instance of `c3_flush_failure` at a concrete failing sink. -/
theorem c3_flush_failure_witness :
    (flushBatch sinkFailFirst sC3).failedCount
        = sC3.failedCount + sC3.batch.length
    ∧ (flushBatch sinkFailFirst sC3).errors
        = sC3.errors ++ [.batchErr "db down" sC3.batch.length]
    ∧ (flushBatch sinkFailFirst sC3).processedCount = sC3.processedCount :=
  ⟨(c3_flush_failure sinkFailFirst sC3 "db down" (by decide) rfl).1,
   (c3_flush_failure sinkFailFirst sC3 "db down" (by decide) rfl).2.1,
   (c3_flush_failure sinkFailFirst sC3 "db down" (by decide) rfl).2.2.1⟩

/-- C4: the revised CSV parser handles quoted fields: a double-quoted
field may contain the comma delimiter, a doubled quote inside a quoted
field resolves to one literal quote, and on the 3-line CSV input
`a,b / 1,2 / 3,"x,y"` with batch size 2 the batcher flushes the batch
`[[a,b],[1,2]]` and then `[[3,"x,y"]]` and resolves
`processed = 3, failed = 0`. -/
theorem c4_csv_quoted :
    ((processStream parseCSVLine sinkAllOk timerNever 2
        ["a,b", "1,2", "3,\"x,y\""]).sinkCalls
      = [[{ lineNumber := 1, data := ["a", "b"] },
          { lineNumber := 2, data := ["1", "2"] }],
         [{ lineNumber := 3, data := ["3", "x,y"] }]]
    ∧ (streamResult parseCSVLine sinkAllOk timerNever 2
        ["a,b", "1,2", "3,\"x,y\""])
      = { processed := 3, failed := 0, errors := [] })
    ∧ (∀ w : String, '"' ∉ w.data →
        parseCSVValues ("\"" ++ w ++ "\"") = [jsTrim w])
    ∧ (∀ u v : String, '"' ∉ u.data → '"' ∉ v.data →
        parseCSVValues ("\"" ++ u ++ "\"\"" ++ v ++ "\"")
          = [jsTrim (u ++ "\"" ++ v)]) :=
  ⟨by decide, parseCSVValues_quoted, parseCSVValues_escaped⟩

/-- Closed instance of the quoted-field clauses of `c4_csv_quoted`: the
field content `x,y` contains the delimiter, and the doubled quote of
`"he said ""hi"` resolves to one literal quote. -/
theorem c4_csv_quoted_witness :
    parseCSVValues ("\"" ++ "x,y" ++ "\"") = [jsTrim "x,y"]
    ∧ parseCSVValues ("\"" ++ "he said " ++ "\"\"" ++ "hi" ++ "\"")
      = [jsTrim ("he said " ++ "\"" ++ "hi")] :=
  ⟨c4_csv_quoted.2.1 "x,y" (by decide),
   c4_csv_quoted.2.2 "he said " "hi" (by decide) (by decide)⟩

/-- C10: for every parser that stamps each record with the line number it
was called with (all three supplied parsers do), the records flushed by
`processStream`, in flush order, carry exactly the 1-based physical
positions of the non-blank successfully parsed source lines — computed by
`okIndices`, whose position counter advances on blank lines too — and
those line numbers are strictly increasing. -/
theorem c10_line_numbers (parser : LineParser) (sink : Sink)
    (tf : Nat → Bool) (bs : Nat) (lines : List String)
    (hp : ∀ l n r, parser l n = .ok r → r.lineNumber = n) :
    ((processStream parser sink tf bs lines).sinkCalls.flatten.map
        (fun r => r.lineNumber)) = okIndices parser lines 0
    ∧ List.Chain' (· < ·)
        ((processStream parser sink tf bs lines).sinkCalls.flatten.map
          (fun r => r.lineNumber)) := by
  have hrn := runLines_recNums parser sink tf bs hp lines {}
  have hfr := flushBatch_recNums sink (runLines parser sink tf bs {} lines)
  have hfb : (processStream parser sink tf bs lines).batch = [] :=
    flushBatch_batch sink (runLines parser sink tf bs {} lines)
  have key : (processStream parser sink tf bs lines).sinkCalls.flatten.map
      (fun r => r.lineNumber) = okIndices parser lines 0 := by
    have : recNums (processStream parser sink tf bs lines)
        = okIndices parser lines 0 := by
      unfold processStream
      rw [hfr, hrn]
      simp [recNums]
    unfold recNums at this
    rw [hfb] at this
    simpa using this
  exact ⟨key, key ▸ okIndices_chain parser lines 0⟩

/-- Closed instance of `c10_line_numbers` at the plain-text parser on a
stream whose middle line is blank: the record line numbers are `[1, 3]`,
skipping position 2 (a gap) while still counting the blank line. -/
theorem c10_line_numbers_witness :
    (((processStream parseTextLine sinkAllOk timerNever 2
        ["a", "", "b"]).sinkCalls.flatten.map (fun r => r.lineNumber))
      = okIndices parseTextLine ["a", "", "b"] 0
    ∧ List.Chain' (· < ·)
        ((processStream parseTextLine sinkAllOk timerNever 2
          ["a", "", "b"]).sinkCalls.flatten.map (fun r => r.lineNumber)))
    ∧ okIndices parseTextLine ["a", "", "b"] 0 = [1, 3] :=
  ⟨c10_line_numbers parseTextLine sinkAllOk timerNever 2 ["a", "", "b"]
      (by intro l n r h; injection h with h2; rw [← h2]),
   by decide⟩

/-! ## Scheduler invariants and claim theorems -/

/-- The field invariant every job state reachable by the scheduler
satisfies: `result` is only populated on completion, `error` is populated
exactly when some attempt has failed, a terminally failed job carries an
error and no result, and a completed job carries a result. -/
def GoodJob (j : JobState) : Prop :=
  ((j.status = .pending ∨ j.status = .processing) → j.result = none)
  ∧ (j.attempts = 0 → j.error = none)
  ∧ (0 < j.attempts → j.error.isSome = true)
  ∧ (j.status = .failed → j.result = none ∧ j.error.isSome = true)
  ∧ (j.status = .completed → j.result.isSome = true)

theorem newJob_good (mA : Nat) : GoodJob (newJob mA) := by
  unfold GoodJob newJob
  simp

/-- Evaluation of a successful attempt. -/
theorem runAttempt_ok (j : JobState) (f : FStatus) (r : ResInfo) (t : Nat) :
    runAttempt j f (.ok r) t
      = ({ j with
            status := .completed
            startedAt := some t
            completedAt := some t
            result := some r }, f) := rfl

/-- Evaluation of a failed attempt that exhausts `maxAttempts`. -/
theorem runAttempt_err_terminal (j : JobState) (f : FStatus) (m : String)
    (t : Nat) (h : j.maxAttempts ≤ j.attempts + 1) :
    runAttempt j f (.error m) t
      = ({ j with
            status := .failed
            attempts := j.attempts + 1
            error := some ⟨m, t⟩
            startedAt := some t
            completedAt := some t }, .failed) := by
  simp only [runAttempt, startAttempt, handleJobError]
  rw [if_pos h]

/-- Evaluation of a failed attempt that still has retries left. -/
theorem runAttempt_err_retry (j : JobState) (f : FStatus) (m : String)
    (t : Nat) (h : ¬(j.maxAttempts ≤ j.attempts + 1)) :
    runAttempt j f (.error m) t
      = ({ j with
            status := .pending
            attempts := j.attempts + 1
            error := some ⟨m, t⟩
            startedAt := some t }, f) := by
  simp only [runAttempt, startAttempt, handleJobError]
  rw [if_neg h]

theorem runAttempt_good (j : JobState) (f : FStatus) (o : Outcome) (t : Nat)
    (hj : GoodJob j) (hp : j.status = .pending) :
    GoodJob (runAttempt j f o t).1 := by
  obtain ⟨g1, g2, g3, g4, g5⟩ := hj
  have hres : j.result = none := g1 (Or.inl hp)
  cases o with
  | ok r =>
      rw [runAttempt_ok]
      refine ⟨fun h => ?_, fun h => g2 h, fun h => g3 h,
        fun h => ?_, fun _ => rfl⟩
      · rcases h with h | h <;> simp at h
      · simp at h
  | error m =>
      by_cases hterm : j.maxAttempts ≤ j.attempts + 1
      · rw [runAttempt_err_terminal j f m t hterm]
        refine ⟨fun h => ?_, fun h => ?_, fun _ => rfl,
          fun _ => ⟨hres, rfl⟩, fun h => ?_⟩
        · rcases h with h | h <;> simp at h
        · simp at h
        · simp at h
      · rw [runAttempt_err_retry j f m t hterm]
        refine ⟨fun _ => hres, fun h => ?_, fun _ => rfl,
          fun h => ?_, fun h => ?_⟩
        · simp at h
        · simp at h
        · simp at h

theorem runJob_good (os : List Outcome) :
    ∀ (j : JobState) (f : FStatus) (t : Nat),
      GoodJob j → GoodJob (runJob j f os t).1 := by
  induction os with
  | nil => intro j f t h; exact h
  | cons o rest ih =>
      intro j f t h
      by_cases hp : j.status = .pending
      · unfold runJob
        rw [if_pos hp]
        show GoodJob (runJob (runAttempt j f o t).1
          (runAttempt j f o t).2 rest (t + 1)).1
        exact ih _ _ _ (runAttempt_good j f o t h hp)
      · unfold runJob
        rw [if_neg hp]
        exact h

/-- C1: a job with `maxAttempts = 3` whose execution fails on all three
attempts is driven through the saved status sequence
`pending, processing, pending, processing, pending, processing, failed`;
at the terminal state `attempts = 3`, `completedAt` is stamped, the last
error is recorded, and the associated File status is set to `failed` —
for arbitrary error messages and an arbitrary initial file status. -/
theorem c1_always_failing_job (m1 m2 m3 : String) (f : FStatus) :
    ((newJob 3).status
        :: (runJob (newJob 3) f [.error m1, .error m2, .error m3] 1).2.2
      = [.pending, .processing, .pending, .processing, .pending,
         .processing, .failed])
    ∧ (runJob (newJob 3) f [.error m1, .error m2, .error m3] 1).1.attempts = 3
    ∧ (runJob (newJob 3) f [.error m1, .error m2, .error m3] 1).1.completedAt
        = some 3
    ∧ (runJob (newJob 3) f [.error m1, .error m2, .error m3] 1).1.error
        = some ⟨m3, 3⟩
    ∧ (runJob (newJob 3) f [.error m1, .error m2, .error m3] 1).1.status
        = .failed
    ∧ (runJob (newJob 3) f [.error m1, .error m2, .error m3] 1).2.1
        = .failed :=
  ⟨rfl, rfl, rfl, rfl, rfl, rfl⟩

/-- C5 counterexample: a job (schema default `maxAttempts = 3`) that fails
on its first attempt and succeeds on its second ends `completed` with
`attempts = 1`, not `attempts = 2`: `executeJob` never increments
`attempts`, which counts only failed attempts. -/
theorem c5_counterexample :
    (runJob (newJob 3) .uploaded [.error "boom", .ok ⟨5, 0⟩] 1).1.status
        = .completed
    ∧ (runJob (newJob 3) .uploaded [.error "boom", .ok ⟨5, 0⟩] 1).1.attempts
        = 1
    ∧ ¬((runJob (newJob 3) .uploaded [.error "boom", .ok ⟨5, 0⟩] 1).1.attempts
        = 2) := by
  decide

/-- C5 (amended): a job whose execution fails on its first attempt and
succeeds on its second ends in status `completed` with `attempts = 1`,
because `attempts` is incremented only by `handleJobError` on failed
attempts. Holds for every `maxAttempts ≥ 2`, error message and result. -/
theorem c5_second_attempt_success (mA : Nat) (m : String) (r : ResInfo)
    (f : FStatus) (h : 2 ≤ mA) :
    (runJob (newJob mA) f [.error m, .ok r] 1).1.status = .completed
    ∧ (runJob (newJob mA) f [.error m, .ok r] 1).1.attempts = 1
    ∧ (runJob (newJob mA) f [.error m, .ok r] 1).1.result = some r := by
  have hcond : ¬(mA ≤ 1) := by omega
  simp [runJob, runAttempt, handleJobError, startAttempt, executeJob,
    newJob, hcond]

/-- Closed instance of `c5_second_attempt_success` at the configured
`maxAttempts = 3`. -/
theorem c5_second_attempt_success_witness :
    (runJob (newJob 3) .uploaded [.error "e", .ok ⟨7, 0⟩] 1).1.status
        = .completed
    ∧ (runJob (newJob 3) .uploaded [.error "e", .ok ⟨7, 0⟩] 1).1.attempts = 1
    ∧ (runJob (newJob 3) .uploaded [.error "e", .ok ⟨7, 0⟩] 1).1.result
        = some ⟨7, 0⟩ :=
  c5_second_attempt_success 3 "e" ⟨7, 0⟩ .uploaded (by decide)

/-- C6 counterexample: a job that completes on its second attempt reaches
the terminal status `completed` with BOTH `result` and `error` populated —
`executeJob` records the result but never clears the error recorded by the
earlier failed attempt — refuting the claimed "never both". -/
theorem c6_counterexample :
    (runJob (newJob 3) .uploaded [.error "disk full", .ok ⟨9, 1⟩] 1).1.status
        = .completed
    ∧ (runJob (newJob 3) .uploaded
        [.error "disk full", .ok ⟨9, 1⟩] 1).1.result.isSome = true
    ∧ (runJob (newJob 3) .uploaded
        [.error "disk full", .ok ⟨9, 1⟩] 1).1.error.isSome = true := by
  decide

/-- C6 (amended): every job run from a fresh admission that reaches a
terminal state has at least one of `result` and `error` populated (never
neither); a failed job carries an error and no result; a completed job
carries a result — and additionally still carries the error of its last
failed attempt whenever it completed after at least one failure. -/
theorem c6_terminal_result_or_error (mA : Nat) (f : FStatus)
    (os : List Outcome) (t : Nat) :
    (((runJob (newJob mA) f os t).1.status = .completed
        ∨ (runJob (newJob mA) f os t).1.status = .failed) →
      ((runJob (newJob mA) f os t).1.result.isSome = true
        ∨ (runJob (newJob mA) f os t).1.error.isSome = true))
    ∧ ((runJob (newJob mA) f os t).1.status = .failed →
        (runJob (newJob mA) f os t).1.result = none
        ∧ (runJob (newJob mA) f os t).1.error.isSome = true)
    ∧ ((runJob (newJob mA) f os t).1.status = .completed →
        (runJob (newJob mA) f os t).1.result.isSome = true)
    ∧ ((runJob (newJob mA) f os t).1.status = .completed →
        0 < (runJob (newJob mA) f os t).1.attempts →
        (runJob (newJob mA) f os t).1.error.isSome = true) := by
  obtain ⟨g1, g2, g3, g4, g5⟩ :=
    runJob_good os (newJob mA) f t (newJob_good mA)
  refine ⟨?_, g4, g5, fun _ ha => g3 ha⟩
  intro h
  rcases h with h | h
  · exact Or.inl (g5 h)
  · exact Or.inr (g4 h).2

/-- Closed instance of `c6_terminal_result_or_error` on a concrete
completed-after-failure run. -/
theorem c6_terminal_result_or_error_witness :
    (runJob (newJob 3) .uploaded [.error "oom", .ok ⟨2, 0⟩] 1).1.result.isSome
        = true
    ∨ (runJob (newJob 3) .uploaded [.error "oom", .ok ⟨2, 0⟩] 1).1.error.isSome
        = true :=
  (c6_terminal_result_or_error 3 .uploaded [.error "oom", .ok ⟨2, 0⟩] 1).1
    (Or.inl (by decide))

/-- C7: when admission hits a quota-exhaustion persistence error while not
yet degraded, `addJob` rejects with the distinguishable 503
service-unavailable error (not a generic failure), persists no job, flips
the scheduler into degraded mode (reported by `getStats`), leaves the
control loop flag untouched, and every subsequent `addJob` call fails fast
with the same error without touching state; a quota error detected by the
initialization query likewise starts the scheduler degraded with the
control loop running. -/
theorem c7_quota_degraded (q : QueueState) (fid : String) (pr : Int)
    (jid : String) (e : DbErr) (hd : q.degradedMode = false)
    (hq : isQuotaError e = true) :
    (addJob q fid pr jid (.error e)).2
        = .error { message := unavailableMsg, statusCode := some 503 }
    ∧ (addJob q fid pr jid (.error e)).1.jobs = q.jobs
    ∧ (addJob q fid pr jid (.error e)).1.degradedMode = true
    ∧ (getStats (addJob q fid pr jid (.error e)).1).degradedMode = true
    ∧ (addJob q fid pr jid (.error e)).1.processing = q.processing
    ∧ (∀ (fid2 : String) (pr2 : Int) (jid2 : String)
          (o2 : Except DbErr Unit),
        addJob (addJob q fid pr jid (.error e)).1 fid2 pr2 jid2 o2
          = ((addJob q fid pr jid (.error e)).1,
             .error { message := unavailableMsg, statusCode := some 503 }))
    ∧ (∀ e2 : DbErr, isQuotaError e2 = true →
        initQueue q 0 (.error e2)
          = .ok { q with degradedMode := true, processing := true }) := by
  refine ⟨?_, ?_, ?_, ?_, ?_, ?_, ?_⟩
  · simp [addJob, hd, hq]
  · simp [addJob, hd, hq]
  · simp [addJob, hd, hq]
  · simp [addJob, getStats, hd, hq]
  · simp [addJob, hd, hq]
  · intro fid2 pr2 jid2 o2
    simp [addJob, hd, hq]
  · intro e2 h2
    simp [initQueue, h2]

/-- A quota-exhaustion persistence error as produced by Atlas. -/
def eQuota : DbErr :=
  { code := some 8000, codeName := some "AtlasError",
    message := "you are over your space quota" }

/-- Closed instance of `c7_quota_degraded` on a fresh scheduler hitting a
concrete Atlas quota error. -/
theorem c7_quota_degraded_witness :
    (addJob {} "file-1" 0 "job-1" (.error eQuota)).2
        = .error { message := unavailableMsg, statusCode := some 503 }
    ∧ (addJob {} "file-1" 0 "job-1" (.error eQuota)).1.degradedMode = true
    ∧ (getStats (addJob {} "file-1" 0 "job-1"
        (.error eQuota)).1).degradedMode = true :=
  ⟨(c7_quota_degraded {} "file-1" 0 "job-1" eQuota rfl (by decide)).1,
   (c7_quota_degraded {} "file-1" 0 "job-1" eQuota rfl (by decide)).2.2.1,
   (c7_quota_degraded {} "file-1" 0 "job-1" eQuota rfl (by decide)).2.2.2.1⟩

/-- C8: at scheduler initialization every job found in status `processing`
is transitioned to terminal `failed` with the distinguishing restart error
message recorded and `completedAt` stamped; no such job is resumed or
returned to `pending`; jobs in other states are untouched; and the
processing loop is started. -/
theorem c8_startup_recovery (q : QueueState) (t : Nat) :
    ∃ q2, initQueue q t (.ok ()) = .ok q2
      ∧ q2.jobs = q.jobs.map (failStuck t)
      ∧ q2.processing = true
      ∧ (∀ p : PJob, p.state.status = .processing →
          (failStuck t p).state.status = .failed
          ∧ (failStuck t p).state.error = some ⟨restartMsg, t⟩
          ∧ (failStuck t p).state.completedAt = some t
          ∧ (failStuck t p).state.status ≠ .pending)
      ∧ (∀ p : PJob, p.state.status ≠ .processing → failStuck t p = p) := by
  refine ⟨_, rfl, rfl, rfl, ?_, ?_⟩
  · intro p hp
    simp [failStuck, hp]
  · intro p hp
    simp [failStuck, hp]

/-- A job document stuck in `processing` from before a restart. -/
def pStuck : PJob :=
  { jobId := "job-9", fileId := "file-9", priority := 0,
    state := { status := .processing } }

/-- Closed instance of `c8_startup_recovery` on a queue holding one stuck
job. -/
theorem c8_startup_recovery_witness :
    (failStuck 7 pStuck).state.status = .failed
    ∧ (failStuck 7 pStuck).state.error = some ⟨restartMsg, 7⟩
    ∧ (failStuck 7 pStuck).state.completedAt = some 7 := by
  obtain ⟨q2, h1, h2, h3, h4, h5⟩ :=
    c8_startup_recovery { jobs := [pStuck] } 7
  have h := h4 pStuck (by decide)
  exact ⟨h.1, h.2.1, h.2.2.1⟩

/-- C9: evaluating the persistence layer as declared by the schema at the
duplicate-insert input. The `(fileId, lineNumber)` index of the
parsed-line collection is declared without `unique: true`
(`fileDataUniqueIndex = false`), so replaying the same parsed-line insert
(same fileId and lineNumber) stores a second, duplicate record instead of
being rejected; the batch save itself succeeds. The duplicate-key
(code 11000) handler in `saveBatch` is unreachable with a non-unique
index. -/
theorem c9_duplicate_stored :
    saveBatch
        (saveBatch [] "file-1" [{ lineNumber := 1, content := some "hello" }])
        "file-1" [{ lineNumber := 1, content := some "hello" }]
      = [{ fileId := "file-1", lineNumber := 1, content := some "hello" },
         { fileId := "file-1", lineNumber := 1, content := some "hello" }]
    ∧ ((saveBatch
          (saveBatch [] "file-1"
            [{ lineNumber := 1, content := some "hello" }])
          "file-1" [{ lineNumber := 1, content := some "hello" }]).filter
        (fun d => d.fileId == "file-1" && d.lineNumber == 1)).length = 2
    ∧ fileDataUniqueIndex = false := by
  decide

end FileProc
